import Mathlib

set_option maxRecDepth 8000

/-!
Verification development for the NL-to-SQL pipeline of `src/app.py`
(a Telegram bot that turns natural-language questions into SQL via a
local language model, executes the SQL against SQLite, and renders the
result as a Markdown table).

The Python string primitives used by the source (`str.strip`, `str.upper`,
`str.replace`, `str.split`, `str.startswith`, substring tests with `in`)
are embedded at the `List Char` level, restricted to ASCII case mapping
and ASCII whitespace (all the statements, messages and delimiters the
program manipulates are ASCII apart from fixed literal text, so this is
faithful on every input the claims and the program touch).

External collaborators are modelled explicitly:
* the SQLite driver is an abstract `Engine` (each call of `executar_sql`
  runs one statement and yields a cursor with `description` and fetched
  rows, or a driver error); a concrete micro-engine covers the two
  statements used by the spec's read/write example on the bootstrap
  table `teste`;
* `json.loads` is a small recursive-descent JSON parser (`jsonLoads`);
  numeric literals beyond plain integers are kept as their raw lexeme,
  which no claim depends on;
* the Ollama streamed reply in `processar_com_tools` is a list of chunks,
  and the nested `AI_SQL` call is an oracle parameter, since its value
  comes from the external model.
-/

/-- ASCII whitespace stripped by Python `str.strip()`. -/
def pyIsSpace (c : Char) : Bool :=
  c = ' ' || c = '\t' || c = '\n' || c = '\r' || c = '\x0b' || c = '\x0c'

/-- Char-list prefix test (Python `str.startswith` on the char level). -/
def startsWithList : List Char → List Char → Bool
  | [], _ => true
  | _ :: _, [] => false
  | p :: ps, c :: cs => decide (p = c) && startsWithList ps cs

/-- Python `str.strip()` on a char list: drop ASCII whitespace from both ends. -/
def pyStripList (l : List Char) : List Char :=
  ((l.dropWhile pyIsSpace).reverse.dropWhile pyIsSpace).reverse

/-- Python `str.strip()`. -/
def pyStrip (s : String) : String :=
  String.mk (pyStripList s.data)

/-- Python `str.upper()` (ASCII case mapping). -/
def pyUpper (s : String) : String :=
  String.mk (s.data.map Char.toUpper)

/-- Python `str.startswith(pre)`. -/
def pyStartsWith (s pre : String) : Bool :=
  startsWithList pre.data s.data

/-- Worker for `pyReplace`: replace occurrences of `pat` left to right,
non-overlapping, continuing after the replacement (Python `str.replace`).
The fuel is the length of the scanned list, which one unit per consumed
character makes sufficient. -/
def replaceGo (pat repl : List Char) : Nat → List Char → List Char
  | _, [] => []
  | 0, s => s
  | fuel + 1, c :: rest =>
    if startsWithList pat (c :: rest) then
      repl ++ replaceGo pat repl fuel (List.drop pat.length (c :: rest))
    else
      c :: replaceGo pat repl fuel rest

/-- Python `s.replace(pat, repl)` for a nonempty `pat`. -/
def pyReplace (s pat repl : String) : String :=
  String.mk (replaceGo pat.data repl.data s.data.length s.data)

/-- Worker for `pySplit`: Python `str.split(sep)` scanning left to right,
`acc` holding the current segment reversed. -/
def splitGo (sep : List Char) : Nat → List Char → List Char → List (List Char)
  | _, acc, [] => [acc.reverse]
  | 0, acc, s => [acc.reverse ++ s]
  | fuel + 1, acc, c :: rest =>
    if startsWithList sep (c :: rest) then
      acc.reverse :: splitGo sep fuel [] (List.drop sep.length (c :: rest))
    else
      splitGo sep fuel (c :: acc) rest

/-- Python `s.split(sep)` for a nonempty separator. -/
def pySplit (s sep : String) : List String :=
  (splitGo sep.data s.data.length [] s.data).map (fun l => String.mk l)

/-- Python `pat in s` substring test for a nonempty `pat`
(the split has more than one segment exactly when `pat` occurs). -/
def strContains (s pat : String) : Bool :=
  (pySplit s pat).length != 1

/-- A value stored in / returned from the SQLite database
(the bootstrap table `teste` holds integers and text; `null` covers NULL). -/
inductive SqlVal
  | int (i : Int)
  | text (s : String)
  | null
deriving DecidableEq

/-- The observable state of a driver cursor after `cur.execute(query)`:
`description` is the column-name list (`None` when the driver reports no
result description, as for INSERT), `rows` is what `fetchall()` yields. -/
structure SqlCursor where
  description : Option (List String)
  rows : List (List SqlVal)
deriving DecidableEq

/-- Abstract SQLite driver: executing one statement either fails with a
`sqlite3.Error` message or yields a successor database state together
with the cursor contents.  `executar_sql` is stated over any engine; a
concrete micro-engine below instantiates it for the spec's examples. -/
structure Engine (σ : Type) where
  exec : σ → String → Except String (σ × SqlCursor)

/-- The dictionary shapes returned by `executar_sql` in `src/app.py`:
`\x7b"query", "colunas", "resultado"\x7d`, `\x7b"query", "status"\x7d`, or
`\x7b"erro"\x7d` with an optional `"query"` key. -/
inductive SqlResult
  | rows (query : String) (colunas : List String) (resultado : List (List SqlVal))
  | status (query : String) (msg : String)
  | erro (msg : String) (query : Option String)
deriving DecidableEq

/-- `executar_sql` (src/app.py lines 104-128).  Empty or whitespace-only
input is rejected before any database access.  Otherwise the statement is
executed; if its stripped, uppercased text starts with `SELECT` the rows
and the column names from `cur.description` (empty list when the driver
reports none) are returned, else the transaction is committed and a
status dictionary returned.  A driver error maps to the `erro` shape
carrying the statement; the connection's context manager rolls back, so
the state is unchanged. -/
def executar_sql {σ : Type} (eng : Engine σ) (db : σ) (query : String) : σ × SqlResult :=
  if pyStrip query = ("") then
    (db, .erro ("Query vazia") none)
  else
    match eng.exec db query with
    | .error e => (db, .erro (("Erro ao executar SQL: ") ++ e) (some query))
    | .ok (db', cur) =>
      if pyStartsWith (pyUpper (pyStrip query)) ("SELECT") then
        (db', .rows query (cur.description.getD []) cur.rows)
      else
        (db', .status query ("Executado com sucesso"))

/-- State of the bootstrap table `teste(Id INTEGER PRIMARY KEY AUTOINCREMENT,
Nome TEXT, Idade INTEGER)`: its rows plus the next autoincrement id. -/
structure TesteDB where
  rows : List (Int × String × Int)
  nextId : Int
deriving DecidableEq

/-- The SQLite driver's behavior on the two concrete statements of the
spec's read/write example over the `teste` table; any other text is a
syntax error at the driver, as in SQLite. -/
def sqliteTesteEngine : Engine TesteDB where
  exec db q :=
    if q = ("SELECT * FROM teste") then
      .ok (db, { description := some [("Id"), ("Nome"), ("Idade")],
                 rows := db.rows.map (fun r => [.int r.1, .text r.2.1, .int r.2.2]) })
    else if q = ("INSERT INTO teste (Nome, Idade) VALUES (\x27Ana\x27, 30)") then
      .ok ({ rows := db.rows ++ [(db.nextId, ("Ana"), 30)], nextId := db.nextId + 1 },
           { description := none, rows := [] })
    else
      .error (("near \"") ++ String.mk (q.data.takeWhile (fun c => decide (c ≠ ' '))) ++ ("\": syntax error"))

/-- The empty `teste` table right after the bootstrap `CREATE TABLE`. -/
def testeEmpty : TesteDB :=
  { rows := [], nextId := 1 }

/-- Keyword test of the extraction loop in `AI_SQL` (src/app.py line 190):
the uppercased segment contains one of the four SQL keywords. -/
def temSql (p : String) : Bool :=
  strContains (pyUpper p) ("SELECT") || strContains (pyUpper p) ("INSERT") ||
    strContains (pyUpper p) ("UPDATE") || strContains (pyUpper p) ("DELETE")

/-- The SQL Extractor: the pure string part of `AI_SQL`
(src/app.py lines 185-198).  Only when the reply contains the fenced
delimiter is it split on triple backticks; the first segment containing a
SQL keyword (case-insensitively) is returned with the literal substrings
"sql" and "SQL" removed and surrounding whitespace stripped (the loop
with early return is `List.find?`).  In every other case the whole reply
is stripped and returned. -/
def extrairSQL (conteudo : String) : String :=
  if strContains conteudo ("```") then
    match (pySplit conteudo ("```")).find? temSql with
    | some p => pyStrip (pyReplace (pyReplace p ("sql") ("")) ("SQL") (""))
    | none => pyStrip conteudo
  else
    pyStrip conteudo

/-- Modelled from the spec's words for claim C2 (refinement comparison
against `extrairSQL`): split the reply on the triple-backtick delimiter,
return the first segment containing a SQL keyword with "sql"/"SQL"
removed and whitespace trimmed, and fall back to the whole reply trimmed
— with no condition that the delimiter be present. -/
def extrairSQLSpec (conteudo : String) : String :=
  match (pySplit conteudo ("```")).find? temSql with
  | some p => pyStrip (pyReplace (pyReplace p ("sql") ("")) ("SQL") (""))
  | none => pyStrip conteudo

/-- String version of Python `str()` on a database value
(`str(int)` is its decimal form, `str(None)` is "None"). -/
def sqlValStr : SqlVal → String
  | .int i => toString i
  | .text s => s
  | .null => ("None")

/-- One element of the `resultado` list handed to `formatar_resultado`:
either a mapping (a dict row) or a positional sequence (a tuple row, as
produced by `fetchall`). -/
inductive Row
  | dict (kvs : List (String × SqlVal))
  | tup (cells : List SqlVal)

/-- `escape_cell` (src/app.py lines 151-152): replace each `|` by `\|`,
then each newline by a single space. -/
def escape_cell (cell : String) : String :=
  pyReplace (pyReplace cell ("|") ("\\|")) ("\n") (" ")

/-- Python `" | ".join(...)`: interleave a separator between elements. -/
def joinSep (sep : String) : List String → String
  | [] => ("")
  | [x] => x
  | x :: xs => x ++ sep ++ joinSep sep xs

/-- The concatenation `line₀ ++ "\n" ++ line₁ ++ "\n" ++ ...` built by the
successive `tabela += ... + "\n"` statements of `formatar_resultado`. -/
def linesJoin : List String → String
  | [] => ("")
  | l :: ls => l ++ ("\n") ++ linesJoin ls

/-- Header row of the Markdown table (column names are escaped too). -/
def headerLine (colunas : List String) : String :=
  ("| ") ++ joinSep (" | ") (colunas.map escape_cell) ++ (" |")

/-- Separator row: one `---` per column. -/
def separatorLine (colunas : List String) : String :=
  ("| ") ++ joinSep (" | ") (List.replicate colunas.length ("---")) ++ (" |")

/-- One data row of the Markdown table (`str` on an already-string cell is
the identity, so the loop body is exactly this). -/
def dataLine (linha : List String) : String :=
  ("| ") ++ joinSep (" | ") (linha.map escape_cell) ++ (" |")

/-- The display cap `LIMITE_RESULTADOS` of `formatar_resultado`. -/
def LIMITE_RESULTADOS : Nat := 10

/-- The truncation notice line appended after the table. -/
def avisoLinha : String := ("⚠️ Mostrando apenas os primeiros 10 resultados.")

/-- The literal appended on truncation, `"\n⚠️ Mostrando apenas os
primeiros 10 resultados."` with `LIMITE_RESULTADOS` interpolated. -/
def avisoTruncado : String := ("\n") ++ avisoLinha

/-- Table emission of `formatar_resultado` (src/app.py lines 146-162)
from the derived column names and the stringified rows: cap the rows at
`LIMITE_RESULTADOS`, emit header, separator and data rows, and append
the truncation notice when rows were dropped. -/
def montarTabela (colunas : List String) (linhas : List (List String)) : String :=
  let shown := if LIMITE_RESULTADOS < linhas.length then linhas.take LIMITE_RESULTADOS else linhas
  let tabela := linesJoin (headerLine colunas :: separatorLine colunas :: shown.map dataLine)
  if LIMITE_RESULTADOS < linhas.length then tabela ++ avisoTruncado else tabela

/-- Projection of one row by the derived dict columns:
`str(item.get(c, ""))` for each column; a non-dict row raises
`AttributeError` in Python (`item.get` does not exist), modelled as the
error branch. -/
def projectDict (cols : List String) : Row → Except String (List String)
  | .dict kvs => .ok (cols.map (fun c => match kvs.lookup c with
      | some v => sqlValStr v
      | none => ("")))
  | .tup _ => .error (("AttributeError: \x27tuple\x27 object has no attribute \x27get\x27"))

/-- Projection of every row in the dict branch. -/
def projectAll (cols : List String) : List Row → Except String (List (List String))
  | [] => .ok []
  | r :: rs =>
    match projectDict cols r, projectAll cols rs with
    | .ok l, .ok ls => .ok (l :: ls)
    | .error e, _ => .error e
    | _, .error e => .error e

/-- Stringification of one row in the tuple branch
(`[str(c) for c in linha]`; iterating a Python dict yields its keys). -/
def rowCells : Row → List String
  | .tup cells => cells.map sqlValStr
  | .dict kvs => kvs.map (fun kv => kv.1)

/-- `formatar_resultado` (src/app.py lines 131-162).  Empty input yields
the fixed no-result message.  If the first row is a dict, columns are its
keys in order and every row is projected by them (a non-dict row then
raises, modelled as the `Except.error` case).  Otherwise explicit columns
are used unless absent or empty (Python falsiness of `colunas`), in which
case `col1..colN` placeholders from the first row's length are
synthesized. -/
def formatar_resultado (resultado : List Row) (colunas : Option (List String)) :
    Except String String :=
  match resultado with
  | [] => .ok ("Nenhum resultado encontrado.")
  | r0 :: _ =>
    match r0 with
    | .dict kvs0 =>
      let cols := kvs0.map (fun kv => kv.1)
      match projectAll cols resultado with
      | .error e => .error e
      | .ok linhas => .ok (montarTabela cols linhas)
    | .tup cells0 =>
      let defaultCols := (List.range cells0.length).map (fun i => ("col") ++ toString (i + 1))
      let cols := match colunas with
        | some cs => if cs.isEmpty then defaultCols else cs
        | none => defaultCols
      .ok (montarTabela cols (resultado.map rowCells))

/-- Observer: the `"\n"`-separated lines of a char list. -/
def splitNL : List Char → List (List Char)
  | [] => [[]]
  | c :: rest =>
    if c = '\n' then [] :: splitNL rest
    else
      match splitNL rest with
      | [] => [[c]]
      | l :: ls => (c :: l) :: ls

/-- Observer: a rendered line is a data/header/separator row of the
Markdown table when it starts with the cell opener `"| "`. -/
def isDataLine (l : List Char) : Bool :=
  decide (l.take 2 = ['|', ' '])

/-- Observer: the number of data rows a rendered table displays — the
lines after the header and separator rows that still open a table row. -/
def countDataRows (s : String) : Nat :=
  ((splitNL s.data).drop 2).countP isDataLine

/-- Observer: `l` contains no newline character. -/
def nlFree : List Char → Bool
  | [] => true
  | c :: rest => decide (c ≠ '\n') && nlFree rest

/-- Observer: the two-character sequence `a b` occurs somewhere in `l`. -/
def hasSub2 (a b : Char) : List Char → Bool
  | [] => false
  | [_] => false
  | x :: y :: rest => (decide (x = a) && decide (y = b)) || hasSub2 a b (y :: rest)

/-- Observer worker: an occurrence of `|` whose preceding character is
not a backslash, scanning with the previous character. -/
def badPipeAux (prev : Char) : List Char → Bool
  | [] => false
  | c :: rest => (decide (c = '|') && decide (prev ≠ '\\')) || badPipeAux c rest

/-- Observer: the list contains an unescaped `|` — one at the very start,
or one not immediately preceded by a backslash. -/
def hasBadPipe : List Char → Bool
  | [] => false
  | c :: rest => decide (c = '|') || badPipeAux c rest

/-- Observer: Python `s.endswith(suffix)`. -/
def strEndsWith (s suffix : String) : Bool :=
  startsWithList suffix.data.reverse s.data.reverse

/-- JSON values as returned by `json.loads`; numeric literals that are
not plain integers (floats, NaN, Infinity) are kept as their raw lexeme
`jraw`, which no claim inspects. -/
inductive JVal
  | jnull
  | jbool (b : Bool)
  | jnum (n : Int)
  | jraw (lexeme : String)
  | jstr (s : String)
  | jarr (xs : List JVal)
  | jobj (kvs : List (String × JVal))

/-- JSON insignificant whitespace skipping. -/
def jwsSkip (l : List Char) : List Char :=
  l.dropWhile (fun c => c = ' ' || c = '\t' || c = '\n' || c = '\r')

/-- Value of one hex digit. -/
def hexVal (c : Char) : Option Nat :=
  if '0' ≤ c ∧ c ≤ '9' then some (c.toNat - 48)
  else if 'a' ≤ c ∧ c ≤ 'f' then some (c.toNat - 87)
  else if 'A' ≤ c ∧ c ≤ 'F' then some (c.toNat - 55)
  else none

/-- JSON string body parser (after the opening quote), with the common
escapes and `\uXXXX`; `acc` is the parsed content reversed. -/
def parseStrGo : Nat → List Char → List Char → Option (String × List Char)
  | 0, _, _ => none
  | _ + 1, acc, '"' :: rest => some (String.mk acc.reverse, rest)
  | f + 1, acc, '\\' :: e :: rest =>
    if e = '"' then parseStrGo f ('"' :: acc) rest
    else if e = '\\' then parseStrGo f ('\\' :: acc) rest
    else if e = '/' then parseStrGo f ('/' :: acc) rest
    else if e = 'n' then parseStrGo f ('\n' :: acc) rest
    else if e = 't' then parseStrGo f ('\t' :: acc) rest
    else if e = 'r' then parseStrGo f ('\r' :: acc) rest
    else if e = 'b' then parseStrGo f ('\x08' :: acc) rest
    else if e = 'f' then parseStrGo f ('\x0c' :: acc) rest
    else if e = 'u' then
      match rest with
      | h1 :: h2 :: h3 :: h4 :: rest' =>
        match hexVal h1, hexVal h2, hexVal h3, hexVal h4 with
        | some a, some b, some c, some d =>
          parseStrGo f (Char.ofNat (((a * 16 + b) * 16 + c) * 16 + d) :: acc) rest'
        | _, _, _, _ => none
      | _ => none
    else none
  | f + 1, acc, c :: rest => parseStrGo f (c :: acc) rest
  | _ + 1, _, [] => none

/-- Decimal digits to a natural number. -/
def digitsToNat (ds : List Char) : Nat :=
  ds.foldl (fun n c => n * 10 + (c.toNat - 48)) 0

/-- Characters a JSON numeric lexeme may contain. -/
def numChar (c : Char) : Bool :=
  c.isDigit || c = '-' || c = '+' || c = '.' || c = 'e' || c = 'E'

/-- JSON number parser: a maximal numeric lexeme; an (optionally signed)
plain digit run is an integer, anything else is kept raw.  Lexing is
slightly more permissive than CPython's `json` on malformed numerics,
which no claim exercises. -/
def parseNum (l : List Char) : Option (JVal × List Char) :=
  let lex := l.takeWhile numChar
  let rest := l.drop lex.length
  match lex with
  | [] => none
  | '-' :: ds =>
    if ds ≠ [] ∧ ds.all Char.isDigit then some (.jnum (-(Int.ofNat (digitsToNat ds))), rest)
    else some (.jraw (String.mk lex), rest)
  | ds =>
    if ds.all Char.isDigit then some (.jnum (Int.ofNat (digitsToNat ds)), rest)
    else some (.jraw (String.mk lex), rest)

mutual

/-- JSON value parser: one value, returning the unconsumed remainder.
The fuel bounds the nesting plus element count, each of which consumes
input, so `length + 1` at the top level is sufficient. -/
def parseVal : Nat → List Char → Option (JVal × List Char)
  | 0, _ => none
  | f + 1, l =>
    match jwsSkip l with
    | [] => none
    | c :: rest =>
      if c = '\x7b' then
        match jwsSkip rest with
        | '\x7d' :: r2 => some (.jobj [], r2)
        | _ => parseMembers f rest []
      else if c = '[' then
        match jwsSkip rest with
        | ']' :: r2 => some (.jarr [], r2)
        | _ => parseItems f rest []
      else if c = '"' then
        match parseStrGo (rest.length + 1) [] rest with
        | some (s, r2) => some (.jstr s, r2)
        | none => none
      else if startsWithList ("null").data (c :: rest) then some (.jnull, (c :: rest).drop 4)
      else if startsWithList ("true").data (c :: rest) then some (.jbool true, (c :: rest).drop 4)
      else if startsWithList ("false").data (c :: rest) then some (.jbool false, (c :: rest).drop 5)
      else if startsWithList ("NaN").data (c :: rest) then some (.jraw ("NaN"), (c :: rest).drop 3)
      else if startsWithList ("Infinity").data (c :: rest) then some (.jraw ("Infinity"), (c :: rest).drop 8)
      else if startsWithList ("-Infinity").data (c :: rest) then some (.jraw ("-Infinity"), (c :: rest).drop 9)
      else parseNum (c :: rest)

/-- JSON array elements after `[` (nonempty case). -/
def parseItems : Nat → List Char → List JVal → Option (JVal × List Char)
  | 0, _, _ => none
  | f + 1, l, acc =>
    match parseVal f l with
    | none => none
    | some (v, r) =>
      match jwsSkip r with
      | ',' :: r2 => parseItems f r2 (v :: acc)
      | ']' :: r2 => some (.jarr (v :: acc).reverse, r2)
      | _ => none

/-- JSON object members after `\x7b` (nonempty case). -/
def parseMembers : Nat → List Char → List (String × JVal) → Option (JVal × List Char)
  | 0, _, _ => none
  | f + 1, l, acc =>
    match jwsSkip l with
    | '"' :: r =>
      match parseStrGo (r.length + 1) [] r with
      | none => none
      | some (k, r2) =>
        match jwsSkip r2 with
        | ':' :: r3 =>
          match parseVal f r3 with
          | none => none
          | some (v, r4) =>
            match jwsSkip r4 with
            | ',' :: r5 => parseMembers f r5 ((k, v) :: acc)
            | '\x7d' :: r5 => some (.jobj ((k, v) :: acc).reverse, r5)
            | _ => none
        | _ => none
    | _ => none

end

/-- `json.loads`: parse one JSON document and reject trailing data;
`none` models `json.JSONDecodeError`. -/
def jsonLoads (s : String) : Option JVal :=
  match parseVal (s.data.length + 1) s.data with
  | none => none
  | some (v, rest) => if jwsSkip rest = [] then some v else none

/-- The Python runtime values the glue code passes around: dicts, lists,
strings, ints, bools, floats (kept as their lexeme) and `None`. -/
inductive PyVal
  | pydict (kvs : List (String × PyVal))
  | pylist (xs : List PyVal)
  | pystr (s : String)
  | pyint (n : Int)
  | pybool (b : Bool)
  | pyfloat (lexeme : String)
  | pynone

mutual

/-- The Python value a decoded JSON value becomes. -/
def jvalToPy : JVal → PyVal
  | .jnull => .pynone
  | .jbool b => .pybool b
  | .jnum n => .pyint n
  | .jraw s => .pyfloat s
  | .jstr s => .pystr s
  | .jarr xs => .pylist (jarrToPy xs)
  | .jobj kvs => .pydict (jobjToPy kvs)

/-- Elementwise `jvalToPy` on array elements. -/
def jarrToPy : List JVal → List PyVal
  | [] => []
  | x :: xs => jvalToPy x :: jarrToPy xs

/-- Elementwise `jvalToPy` on object members. -/
def jobjToPy : List (String × JVal) → List (String × PyVal)
  | [] => []
  | kv :: kvs => (kv.1, jvalToPy kv.2) :: jobjToPy kvs

end

mutual

/-- Python `repr` on the modelled values (string quoting without escape
refinements, which no claim inspects). -/
def pyRepr : PyVal → String
  | .pystr s => ("\x27") ++ s ++ ("\x27")
  | .pyint n => toString n
  | .pybool b => if b then ("True") else ("False")
  | .pyfloat lexeme => lexeme
  | .pynone => ("None")
  | .pylist xs => ("[") ++ pyReprList xs ++ ("]")
  | .pydict kvs => ("\x7b") ++ pyReprKVs kvs ++ ("\x7d")

/-- Comma-separated `repr` of list elements. -/
def pyReprList : List PyVal → String
  | [] => ("")
  | [x] => pyRepr x
  | x :: xs => pyRepr x ++ (", ") ++ pyReprList xs

/-- Comma-separated `repr` of dict members (keys are strings, whose
`repr` is the quoted key). -/
def pyReprKVs : List (String × PyVal) → String
  | [] => ("")
  | [kv] => ("\x27") ++ kv.1 ++ ("\x27: ") ++ pyRepr kv.2
  | kv :: kvs => ("\x27") ++ kv.1 ++ ("\x27: ") ++ pyRepr kv.2 ++ (", ") ++ pyReprKVs kvs

end

/-- Python `str` on the modelled values. -/
def pyStr : PyVal → String
  | .pystr s => s
  | v => pyRepr v

/-- Whether a Python value is a dict (`isinstance(obj, dict)`). -/
def isDictPy : PyVal → Bool
  | .pydict _ => true
  | _ => false

/-- `seguro_json` (src/app.py lines 92-101): a dict passes through, a
string is JSON-parsed when possible (returning whatever value it decodes
to) and wrapped as `\x7b"resposta": obj\x7d` on decode failure, and any
other value is wrapped as `\x7b"resposta": str(obj)\x7d`. -/
def seguro_json (obj : PyVal) : PyVal :=
  match obj with
  | .pydict kvs => .pydict kvs
  | .pystr s =>
    match jsonLoads s with
    | some j => jvalToPy j
    | none => .pydict [(("resposta"), .pystr s)]
  | v => .pydict [(("resposta"), .pystr (pyStr v))]

/-- Python falsiness of the values the glue code tests with `if not x`. -/
def pyFalsy : PyVal → Bool
  | .pystr s => decide (s = (""))
  | .pyint n => decide (n = 0)
  | .pybool b => !b
  | .pynone => true
  | .pylist xs => xs.isEmpty
  | .pydict kvs => kvs.isEmpty
  | .pyfloat _ => false

/-- One streamed tool call: `call["function"]["name"]` and
`call["function"].get("arguments", "\x7b\x7d")` — `none` models an absent
`arguments` key, whose default is the string `"\x7b\x7d"`. -/
structure ToolCall where
  name : String
  arguments : Option PyVal

/-- One chunk of the streamed Ollama reply: optional message content and
the message's tool calls (an absent `tool_calls` key and an empty list
are indistinguishable to the loop, which only iterates over them). -/
structure Chunk where
  content : Option String
  tool_calls : List ToolCall

/-- The overall dictionary shapes `processar_com_tools` can return:
the `AI_SQL`/`executar_sql` result, a plain `\x7b"resposta": text\x7d`
answer, or a `\x7b"erro": msg\x7d` of its own. -/
inductive ToolsResult
  | sql (r : SqlResult)
  | resposta (text : String)
  | erro (msg : String)
deriving DecidableEq

/-- Outcome of the `arguments` normalization step (src/app.py lines
243-249): a string is JSON-decoded, `JSONDecodeError` making the loop
`continue` (malformed), any other value passes through. -/
inductive ArgsOutcome
  | malformed
  | resolved (v : PyVal)

/-- Normalize the `arguments` of a tool call as the loop body does. -/
def resolveArgs (args0 : PyVal) : ArgsOutcome :=
  match args0 with
  | .pystr s =>
    match jsonLoads s with
    | none => .malformed
    | some j => .resolved (jvalToPy j)
  | v => .resolved v

/-- Python type names for the modelled values (for `str(AttributeError)`). -/
def pyTypeName : PyVal → String
  | .pydict _ => ("dict")
  | .pylist _ => ("list")
  | .pystr _ => ("str")
  | .pyint _ => ("int")
  | .pybool _ => ("bool")
  | .pyfloat _ => ("float")
  | .pynone => ("NoneType")

/-- The `ExecSql` branch body (src/app.py lines 251-255): read
`args.get("pergunta", "")`, reject a falsy question, otherwise run
`AI_SQL` (the oracle).  Non-dict `args` raise `AttributeError` at
`.get`, which the surrounding `except` turns into the generic erro. -/
def execSqlCall (aiSql : PyVal → SqlResult) (v : PyVal) : ToolsResult :=
  match v with
  | .pydict kvs =>
    let pergunta := (kvs.lookup ("pergunta")).getD (.pystr (""))
    if pyFalsy pergunta then .erro ("Pergunta não fornecida para ExecSql")
    else .sql (aiSql pergunta)
  | other =>
    .erro (("Erro ao processar: \x27") ++ pyTypeName other ++ ("\x27 object has no attribute \x27get\x27"))

/-- The inner `for call in chunk["message"]["tool_calls"]` loop:
`none` means the loop finished without returning (fall through to the
next chunk), `some r` means the function returned `r`. -/
def procCalls (aiSql : PyVal → SqlResult) : List ToolCall → Option ToolsResult
  | [] => none
  | call :: rest =>
    match resolveArgs (call.arguments.getD (.pystr ("\x7b\x7d"))) with
    | .malformed => procCalls aiSql rest
    | .resolved v =>
      if call.name = ("ExecSql") then some (execSqlCall aiSql v)
      else procCalls aiSql rest

/-- The final plain answer: the accumulated content stripped, or the
fixed fallback when the stripped content is empty (falsy). -/
def fallbackText (resposta : String) : String :=
  if pyStrip resposta = ("") then ("Sem resposta gerada") else pyStrip resposta

/-- The outer `for chunk in ollama.chat(...)` loop of
`processar_com_tools` (src/app.py lines 237-257): accumulate streamed
content, process each chunk's tool calls, and return the first result a
tool call produces; when the stream ends, return the plain answer. -/
def procChunks (aiSql : PyVal → SqlResult) : List Chunk → String → ToolsResult
  | [], resposta => .resposta (fallbackText resposta)
  | ch :: rest, resposta =>
    let resposta' := resposta ++ ch.content.getD ("")
    match procCalls aiSql ch.tool_calls with
    | some r => r
    | none => procChunks aiSql rest resposta'

/-- `processar_com_tools` (src/app.py lines 228-261) as a function of the
streamed chunks, with the nested `AI_SQL` call as an oracle parameter
(its value comes from the external model and database). -/
def processar_com_tools (aiSql : PyVal → SqlResult) (chunks : List Chunk) : ToolsResult :=
  procChunks aiSql chunks ("")

/-- The concatenation of all streamed content fields. -/
def accumContent : List Chunk → String
  | [] => ("")
  | ch :: rest => ch.content.getD ("") ++ accumContent rest

/-- Whether a `ToolsResult` is the erro shape. -/
def isErro : ToolsResult → Bool
  | .erro _ => true
  | _ => false

/-- A fixed oracle for closed counterexamples and witnesses (its value is
irrelevant to the statements that use it). -/
def oracleZero : PyVal → SqlResult :=
  fun _ => .erro ("x") none

/-- Character-wise expansion: `str.replace` with a single-character
pattern expands each character independently. -/
def charExpand (f : Char → List Char) : List Char → List Char
  | [] => []
  | c :: rest => f c ++ charExpand f rest

/-- The per-character effect of `.replace("|", "\\|")`. -/
def fPipe : Char → List Char :=
  fun c => if c = '|' then ['\\', '|'] else [c]

/-- The per-character effect of `.replace("\n", " ")`. -/
def gNL : Char → Char :=
  fun c => if c = '\n' then ' ' else c

/-- The INSERT statement of the spec's read/write example. -/
def insertAna : String :=
  ("INSERT INTO teste (Nome, Idade) VALUES (\x27Ana\x27, 30)")

/-- A second engine (for stating that the empty-query guard never touches
the driver): it accepts everything with an empty cursor. -/
def trivEngine : Engine TesteDB where
  exec db _ := .ok (db, { description := none, rows := [] })

/-- Eleven one-cell rows, exercising the formatter's truncation branch. -/
def c3Rows11 : List Row :=
  (List.range 11).map (fun i => Row.tup [.int i])

/-- The formatter's output on `c3Rows11`. -/
def c3Out11 : String :=
  match formatar_resultado c3Rows11 none with
  | .ok s => s
  | .error _ => ("")

/-- Two one-cell rows, exercising the formatter's untruncated branch. -/
def c3Rows2 : List Row :=
  [Row.tup [.int 1], Row.tup [.int 2]]

/-- The formatter's output on `c3Rows2`. -/
def c3Out2 : String :=
  match formatar_resultado c3Rows2 none with
  | .ok s => s
  | .error _ => ("")

theorem dropWhile_head_false {α : Type} (p : α → Bool) :
    ∀ (l : List α) (c : α), (l.dropWhile p).head? = some c → p c = false := by
  intro l
  induction l with
  | nil => intro c h; simp at h
  | cons x xs ih =>
    intro c h
    cases hpx : p x with
    | true =>
      rw [List.dropWhile_cons, if_pos hpx] at h
      exact ih c h
    | false =>
      rw [List.dropWhile_cons, if_neg (by simp [hpx])] at h
      simp at h
      subst h
      exact hpx

theorem dropWhile_of_head_false {α : Type} (p : α → Bool) :
    ∀ (l : List α), (∀ c, l.head? = some c → p c = false) → l.dropWhile p = l := by
  intro l h
  cases l with
  | nil => rfl
  | cons x xs =>
    rw [List.dropWhile_cons, if_neg (by simp [h x rfl])]

theorem dropWhile_twice {α : Type} (p : α → Bool) (l : List α) :
    (l.dropWhile p).dropWhile p = l.dropWhile p :=
  dropWhile_of_head_false p _ (dropWhile_head_false p l)

theorem pyStripList_idem (l : List Char) :
    pyStripList (pyStripList l) = pyStripList l := by
  unfold pyStripList
  have hT : ∃ T, l.dropWhile pyIsSpace =
      ((l.dropWhile pyIsSpace).reverse.dropWhile pyIsSpace).reverse ++ T := by
    refine ⟨((l.dropWhile pyIsSpace).reverse.takeWhile pyIsSpace).reverse, ?_⟩
    have h := List.takeWhile_append_dropWhile pyIsSpace (l.dropWhile pyIsSpace).reverse
    calc l.dropWhile pyIsSpace = (l.dropWhile pyIsSpace).reverse.reverse := by simp
    _ = ((l.dropWhile pyIsSpace).reverse.takeWhile pyIsSpace ++
          (l.dropWhile pyIsSpace).reverse.dropWhile pyIsSpace).reverse := by rw [h]
    _ = _ := by rw [List.reverse_append]
  obtain ⟨T, hT⟩ := hT
  have h1 : (((l.dropWhile pyIsSpace).reverse.dropWhile pyIsSpace).reverse).dropWhile pyIsSpace =
      ((l.dropWhile pyIsSpace).reverse.dropWhile pyIsSpace).reverse := by
    apply dropWhile_of_head_false
    intro c hc
    rcases hB : ((l.dropWhile pyIsSpace).reverse.dropWhile pyIsSpace).reverse with _ | ⟨b, bs⟩
    · rw [hB] at hc; simp at hc
    · rw [hB] at hc
      simp at hc
      subst hc
      apply dropWhile_head_false pyIsSpace l
      rw [hT, hB]
      rfl
  rw [h1, List.reverse_reverse, dropWhile_twice]

theorem pyStrip_idem (s : String) : pyStrip (pyStrip s) = pyStrip s := by
  simp [pyStrip, pyStripList_idem]

theorem extrairSQL_is_strip (s : String) : ∃ t, extrairSQL s = pyStrip t := by
  unfold extrairSQL
  split
  · split
    · exact ⟨_, rfl⟩
    · exact ⟨s, rfl⟩
  · exact ⟨s, rfl⟩

theorem replaceGo_single (a : Char) (r : List Char) :
    ∀ (l : List Char) (fuel : Nat), l.length ≤ fuel →
      replaceGo [a] r fuel l = charExpand (fun c => if c = a then r else [c]) l := by
  intro l
  induction l with
  | nil => intro fuel _; cases fuel <;> rfl
  | cons c rest ih =>
    intro fuel hf
    cases fuel with
    | zero => simp at hf
    | succ f =>
      have hf' : rest.length ≤ f := by simp at hf; omega
      by_cases hca : c = a
      · subst hca
        simp [replaceGo, startsWithList, charExpand, ih rest.length (le_refl _), ih f hf']
      · simp [replaceGo, startsWithList, charExpand, hca, ih f hf', Ne.symm hca]

theorem charExpand_single_char (a b : Char) :
    ∀ (l : List Char),
      charExpand (fun c => if c = a then [b] else [c]) l = l.map (fun c => if c = a then b else c) := by
  intro l
  induction l with
  | nil => rfl
  | cons c rest ih =>
    by_cases hca : c = a
    · subst hca; simp [charExpand, ih]
    · simp [charExpand, hca, ih]

theorem escape_cell_data (cell : String) :
    (escape_cell cell).data = (charExpand fPipe cell.data).map gNL := by
  have h1 : (pyReplace cell ("|") ("\\|")).data = charExpand fPipe cell.data := by
    show replaceGo ['|'] ['\\', '|'] cell.data.length cell.data = _
    exact replaceGo_single '|' ['\\', '|'] cell.data cell.data.length (le_refl _)
  show (pyReplace (pyReplace cell ("|") ("\\|")) ("\n") (" ")).data = _
  have h2 : (pyReplace (pyReplace cell ("|") ("\\|")) ("\n") (" ")).data =
      charExpand (fun c => if c = '\n' then [' '] else [c]) (pyReplace cell ("|") ("\\|")).data := by
    show replaceGo ['\n'] [' '] _ _ = _
    exact replaceGo_single '\n' [' '] _ _ (le_refl _)
  rw [h2, charExpand_single_char, h1]
  rfl

theorem nlFree_append (a b : List Char) : nlFree (a ++ b) = (nlFree a && nlFree b) := by
  induction a with
  | nil => simp [nlFree]
  | cons c rest ih => simp [nlFree, ih, Bool.and_assoc]

theorem nlFree_map_gNL (l : List Char) : nlFree (l.map gNL) = true := by
  induction l with
  | nil => rfl
  | cons c rest ih =>
    by_cases hc : c = '\n'
    · subst hc; simp [nlFree, gNL, ih]
    · simp [nlFree, gNL, hc, ih]

theorem escape_cell_nlFree (cell : String) : nlFree (escape_cell cell).data = true := by
  rw [escape_cell_data]
  exact nlFree_map_gNL _

theorem charExpand_map (f : Char → List Char) (g : Char → Char) :
    ∀ (l : List Char), (charExpand f l).map g = charExpand (fun c => (f c).map g) l := by
  intro l
  induction l with
  | nil => rfl
  | cons c rest ih => simp [charExpand, ih]

theorem badPipeAux_escape :
    ∀ (t : List Char) (prev : Char),
      badPipeAux prev (charExpand (fun c => (fPipe c).map gNL) t) = false := by
  intro t
  induction t with
  | nil => intro prev; rfl
  | cons c rest ih =>
    intro prev
    show badPipeAux prev (((fPipe c).map gNL) ++ charExpand _ rest) = false
    by_cases hc : c = '|'
    · subst hc
      have e1 : (fPipe '|').map gNL = ['\\', '|'] := by decide
      rw [e1]
      simp [badPipeAux, ih]
    · have e1 : (fPipe c).map gNL = [gNL c] := by simp [fPipe, hc]
      rw [e1]
      have e2 : (gNL c = '|') = False := by
        simp only [gNL]
        by_cases hn : c = '\n'
        · simp [hn]
        · simp [hn, hc]
      simp [badPipeAux, e2, ih]

theorem hasBadPipe_escape_expand (t : List Char) :
    hasBadPipe (charExpand (fun c => (fPipe c).map gNL) t) = false := by
  cases t with
  | nil => rfl
  | cons c rest =>
    show hasBadPipe (((fPipe c).map gNL) ++ charExpand _ rest) = false
    by_cases hc : c = '|'
    · subst hc
      have e1 : (fPipe '|').map gNL = ['\\', '|'] := by decide
      rw [e1]
      simp [hasBadPipe, badPipeAux, badPipeAux_escape]
    · have e1 : (fPipe c).map gNL = [gNL c] := by simp [fPipe, hc]
      rw [e1]
      have e2 : (gNL c = '|') = False := by
        simp only [gNL]
        by_cases hn : c = '\n'
        · simp [hn]
        · simp [hn, hc]
      simp [hasBadPipe, e2, badPipeAux_escape]

theorem escape_cell_noBadPipe (cell : String) : hasBadPipe (escape_cell cell).data = false := by
  rw [escape_cell_data, charExpand_map]
  exact hasBadPipe_escape_expand _

theorem nlFree_joinSep (sep : String) :
    ∀ (l : List String), nlFree sep.data = true → (∀ x ∈ l, nlFree x.data = true) →
      nlFree (joinSep sep l).data = true := by
  intro l hsep
  induction l with
  | nil => intro _; rfl
  | cons x xs ih =>
    intro hx
    cases xs with
    | nil =>
      show nlFree x.data = true
      exact hx x (by simp)
    | cons y ys =>
      show nlFree (x ++ sep ++ joinSep sep (y :: ys)).data = true
      rw [String.data_append, String.data_append, nlFree_append, nlFree_append]
      rw [hx x (by simp), hsep, ih (fun z hz => hx z (by simp [hz]))]
      rfl

theorem headerLine_eq_dataLine (cols : List String) : headerLine cols = dataLine cols := rfl

theorem nlFree_dataLine (cells : List String) : nlFree (dataLine cells).data = true := by
  show nlFree (("| ") ++ joinSep (" | ") (cells.map escape_cell) ++ (" |")).data = true
  rw [String.data_append, String.data_append, nlFree_append, nlFree_append]
  have h3 : nlFree (joinSep (" | ") (cells.map escape_cell)).data = true := by
    apply nlFree_joinSep _ _ (by decide)
    intro x hx
    obtain ⟨c, _, rfl⟩ := List.mem_map.mp hx
    exact escape_cell_nlFree c
  rw [h3]
  decide

theorem nlFree_separatorLine (cols : List String) : nlFree (separatorLine cols).data = true := by
  show nlFree (("| ") ++ joinSep (" | ") (List.replicate cols.length ("---")) ++ (" |")).data = true
  rw [String.data_append, String.data_append, nlFree_append, nlFree_append]
  have h3 : nlFree (joinSep (" | ") (List.replicate cols.length ("---"))).data = true := by
    apply nlFree_joinSep _ _ (by decide)
    intro x hx
    rw [List.eq_of_mem_replicate hx]
    decide
  rw [h3]
  decide

theorem head_dataLine (cells : List String) : (dataLine cells).data.head? = some '|' := by
  show (("| ") ++ joinSep (" | ") (cells.map escape_cell) ++ (" |")).data.head? = some '|'
  rw [String.data_append, String.data_append]
  rfl

theorem head_separatorLine (cols : List String) : (separatorLine cols).data.head? = some '|' := by
  show (("| ") ++ joinSep (" | ") (List.replicate cols.length ("---")) ++ (" |")).data.head? = some '|'
  rw [String.data_append, String.data_append]
  rfl

theorem isDataLine_dataLine (cells : List String) : isDataLine (dataLine cells).data = true := by
  show isDataLine ((("| ") ++ joinSep (" | ") (cells.map escape_cell) ++ (" |")).data) = true
  rw [String.data_append, String.data_append]
  rfl

theorem splitNL_of_nlFree : ∀ (l : List Char), nlFree l = true → splitNL l = [l] := by
  intro l
  induction l with
  | nil => intro _; rfl
  | cons c rest ih =>
    intro h
    rw [nlFree] at h
    simp at h
    rw [splitNL, if_neg (by simp [h.1]), ih h.2]

theorem splitNL_append_nl : ∀ (l t : List Char), nlFree l = true →
    splitNL (l ++ '\n' :: t) = l :: splitNL t := by
  intro l
  induction l with
  | nil => intro t _; simp [splitNL]
  | cons c rest ih =>
    intro t h
    rw [nlFree] at h
    simp at h
    show splitNL (c :: (rest ++ '\n' :: t)) = (c :: rest) :: splitNL t
    rw [splitNL, if_neg (by simp [h.1]), ih t h.2]

theorem splitNL_linesJoin : ∀ (L : List String) (t : List Char),
    (∀ x ∈ L, nlFree x.data = true) →
    splitNL ((linesJoin L).data ++ t) = L.map (fun s => s.data) ++ splitNL t := by
  intro L
  induction L with
  | nil => intro t _; rfl
  | cons x xs ih =>
    intro t h
    show splitNL ((x ++ ("\n") ++ linesJoin xs).data ++ t) = _
    rw [String.data_append, String.data_append]
    have e1 : ((("\n") : String)).data = ['\n'] := rfl
    rw [e1]
    rw [List.append_assoc, List.append_assoc]
    show splitNL (x.data ++ ('\n' :: ((linesJoin xs).data ++ t))) = _
    rw [splitNL_append_nl _ _ (h x (by simp)), ih t (fun z hz => h z (by simp [hz]))]
    rfl

theorem hasSub2_skip (b : Char) : ∀ (l t : List Char), nlFree l = true →
    hasSub2 '\n' b (l ++ t) = hasSub2 '\n' b t := by
  intro l
  induction l with
  | nil => intro t _; rfl
  | cons c rest ih =>
    intro t h
    rw [nlFree] at h
    simp at h
    rcases hrt : rest ++ t with _ | ⟨y, r⟩
    · have he := List.append_eq_nil.mp hrt
      rw [he.1, he.2]
      rfl
    · show hasSub2 '\n' b (c :: (rest ++ t)) = hasSub2 '\n' b t
      rw [hrt, hasSub2, ← hrt, ih t h.2]
      simp [h.1]

theorem hasSub2_linesJoin : ∀ (L : List String),
    (∀ x ∈ L, nlFree x.data = true) → (∀ x ∈ L, x.data.head? = some '|') →
    hasSub2 '\n' '⚠' (linesJoin L).data = false := by
  intro L
  induction L with
  | nil => intro _ _; rfl
  | cons x xs ih =>
    intro h1 h2
    show hasSub2 '\n' '⚠' ((x ++ ("\n") ++ linesJoin xs).data) = false
    rw [String.data_append, String.data_append]
    have e1 : ((("\n") : String)).data = ['\n'] := rfl
    rw [e1, List.append_assoc]
    rw [hasSub2_skip _ _ _ (h1 x (by simp))]
    show hasSub2 '\n' '⚠' ('\n' :: (linesJoin xs).data) = false
    cases xs with
    | nil => rfl
    | cons y ys =>
      have hy : y.data.head? = some '|' := h2 y (by simp)
      rcases hyd : y.data with _ | ⟨c, cs⟩
      · rw [hyd] at hy; simp at hy
      · rw [hyd] at hy
        simp at hy
        have e2 : (linesJoin (y :: ys)).data = y.data ++ ('\n' :: (linesJoin ys).data) := by
          show (y ++ ("\n") ++ linesJoin ys).data = _
          rw [String.data_append, String.data_append, e1, List.append_assoc]
          rfl
        rw [e2, hyd]
        subst hy
        show hasSub2 '\n' '⚠' ('\n' :: '|' :: (cs ++ ('\n' :: (linesJoin ys).data))) = false
        rw [hasSub2]
        have e3 : hasSub2 '\n' '⚠' ('|' :: (cs ++ ('\n' :: (linesJoin ys).data))) = false := by
          have : ('|' :: cs) ++ ('\n' :: (linesJoin ys).data) = '|' :: (cs ++ ('\n' :: (linesJoin ys).data)) := by simp
          rw [← this, ← hyd, ← e2]
          exact ih (fun z hz => h1 z (by simp [hz])) (fun z hz => h2 z (by simp [hz]))
        rw [e3]
        simp

theorem startsWithList_self_append : ∀ (l t : List Char), startsWithList l (l ++ t) = true := by
  intro l t
  induction l with
  | nil => rfl
  | cons c rest ih => simp [startsWithList, ih]

theorem strEndsWith_append (a b : String) : strEndsWith (a ++ b) b = true := by
  show startsWithList b.data.reverse (a ++ b).data.reverse = true
  rw [String.data_append, List.reverse_append]
  exact startsWithList_self_append _ _

theorem projectAll_length (cols : List String) :
    ∀ (rows : List Row) (linhas : List (List String)),
      projectAll cols rows = .ok linhas → linhas.length = rows.length := by
  intro rows
  induction rows with
  | nil =>
    intro linhas h
    simp [projectAll] at h
    subst h
    rfl
  | cons r rs ih =>
    intro linhas h
    rw [projectAll] at h
    rcases h1 : projectDict cols r with e | l
    · rw [h1] at h; exact absurd h (by simp)
    · rcases h2 : projectAll cols rs with e | ls
      · rw [h1, h2] at h; exact absurd h (by simp)
      · rw [h1, h2] at h
        simp at h
        subst h
        simp [ih ls h2]

theorem montar_lines_nlFree (cols : List String) (shown : List (List String)) :
    ∀ x ∈ headerLine cols :: separatorLine cols :: shown.map dataLine, nlFree x.data = true := by
  intro x hx
  rw [List.mem_cons, List.mem_cons] at hx
  rcases hx with h | h | h
  · rw [h, headerLine_eq_dataLine]; exact nlFree_dataLine _
  · rw [h]; exact nlFree_separatorLine _
  · obtain ⟨c, _, rfl⟩ := List.mem_map.mp (by simpa using h)
    exact nlFree_dataLine _

theorem montar_lines_head (cols : List String) (shown : List (List String)) :
    ∀ x ∈ headerLine cols :: separatorLine cols :: shown.map dataLine,
      x.data.head? = some '|' := by
  intro x hx
  rw [List.mem_cons, List.mem_cons] at hx
  rcases hx with h | h | h
  · rw [h, headerLine_eq_dataLine]; exact head_dataLine _
  · rw [h]; exact head_separatorLine _
  · obtain ⟨c, _, rfl⟩ := List.mem_map.mp (by simpa using h)
    exact head_dataLine _

theorem countP_dataLines (shown : List (List String)) :
    List.countP isDataLine ((shown.map dataLine).map (fun s => s.data)) = shown.length := by
  rw [List.map_map]
  rw [List.countP_eq_length.mpr]
  · simp
  · intro a ha
    obtain ⟨c, _, rfl⟩ := List.mem_map.mp ha
    exact isDataLine_dataLine _

theorem montarTabela_spec (cols : List String) (linhas : List (List String)) :
    countDataRows (montarTabela cols linhas) = min linhas.length LIMITE_RESULTADOS ∧
    (LIMITE_RESULTADOS < linhas.length →
       strEndsWith (montarTabela cols linhas) avisoTruncado = true) ∧
    (linhas.length ≤ LIMITE_RESULTADOS →
       hasSub2 '\n' '⚠' (montarTabela cols linhas).data = false) := by
  by_cases htr : LIMITE_RESULTADOS < linhas.length
  · have e1 : montarTabela cols linhas =
        linesJoin (headerLine cols :: separatorLine cols ::
          (linhas.take LIMITE_RESULTADOS).map dataLine) ++ avisoTruncado := by
      rw [montarTabela]
      simp [htr]
    have e2 : (montarTabela cols linhas).data =
        (linesJoin (headerLine cols :: separatorLine cols ::
          (linhas.take LIMITE_RESULTADOS).map dataLine)).data ++ ('\n' :: avisoLinha.data) := by
      rw [e1, String.data_append]
      rfl
    refine ⟨?_, fun _ => by rw [e1]; exact strEndsWith_append _ _, fun hle => absurd htr (by omega)⟩
    rw [countDataRows, e2]
    rw [splitNL_linesJoin _ _ (montar_lines_nlFree cols _)]
    have e3 : splitNL ('\n' :: avisoLinha.data) = [[], avisoLinha.data] := by
      rw [splitNL, if_pos rfl, splitNL_of_nlFree _ (by decide)]
    rw [e3]
    show List.countP isDataLine
      ((((linhas.take LIMITE_RESULTADOS).map dataLine).map (fun s => s.data)) ++
        [[], avisoLinha.data]) = _
    rw [List.countP_append, countP_dataLines]
    have e4 : List.countP isDataLine [[], avisoLinha.data] = 0 := by decide
    rw [e4, List.length_take]
    omega
  · have e1 : montarTabela cols linhas =
        linesJoin (headerLine cols :: separatorLine cols :: linhas.map dataLine) := by
      rw [montarTabela]
      simp [htr]
    refine ⟨?_, fun h => absurd h htr, fun _ => ?_⟩
    · rw [countDataRows, e1]
      have e2 : (linesJoin (headerLine cols :: separatorLine cols :: linhas.map dataLine)).data =
          (linesJoin (headerLine cols :: separatorLine cols :: linhas.map dataLine)).data ++ [] := by
        simp
      rw [e2, splitNL_linesJoin _ _ (montar_lines_nlFree cols _)]
      show List.countP isDataLine (((linhas.map dataLine).map (fun s => s.data)) ++ splitNL []) = _
      rw [List.countP_append, countP_dataLines]
      have e3 : List.countP isDataLine (splitNL []) = 0 := by decide
      rw [e3]
      omega
    · rw [e1]
      exact hasSub2_linesJoin _ (montar_lines_nlFree cols _) (montar_lines_head cols _)

theorem c3_assemble (linhas : List (List String)) (cols : List String) (n : Nat)
    (hlen : linhas.length = n) :
    (LIMITE_RESULTADOS < n →
       countDataRows (montarTabela cols linhas) = 10 ∧
       strEndsWith (montarTabela cols linhas) avisoTruncado = true ∧
       strContains avisoTruncado ("10") = true) ∧
    (n ≤ LIMITE_RESULTADOS →
       countDataRows (montarTabela cols linhas) = n ∧
       hasSub2 '\n' '⚠' (montarTabela cols linhas).data = false) := by
  obtain ⟨hc, hts, hns⟩ := montarTabela_spec cols linhas
  subst hlen
  constructor
  · intro h10
    refine ⟨?_, hts h10, by decide⟩
    rw [hc]
    simp [LIMITE_RESULTADOS] at h10 ⊢
    omega
  · intro hle
    refine ⟨?_, hns hle⟩
    rw [hc]
    simp [LIMITE_RESULTADOS] at hle ⊢
    omega

/-- Claim C3: every Formatter input with more than 10 rows renders exactly
10 data rows followed by the trailing truncation notice (which names the
cap 10); every input with at most 10 rows renders all its rows and no
truncation notice appears (no newline-then-warning sequence exists in the
output). -/
theorem c3_formatter_row_cap :
    ∀ (resultado : List Row) (colunas : Option (List String)) (out : String),
      formatar_resultado resultado colunas = .ok out →
      (LIMITE_RESULTADOS < resultado.length →
         countDataRows out = 10 ∧ strEndsWith out avisoTruncado = true ∧
         strContains avisoTruncado ("10") = true) ∧
      (resultado.length ≤ LIMITE_RESULTADOS →
         countDataRows out = resultado.length ∧ hasSub2 '\n' '⚠' out.data = false) := by
  intro resultado colunas out h
  cases resultado with
  | nil =>
    rw [formatar_resultado] at h
    injection h with h
    subst h
    constructor
    · intro h10
      simp [LIMITE_RESULTADOS] at h10
    · intro _
      exact ⟨by decide, by decide⟩
  | cons r0 rs =>
    cases r0 with
    | dict kvs0 =>
      simp only [formatar_resultado] at h
      rcases hp : projectAll (kvs0.map fun kv => kv.1) (Row.dict kvs0 :: rs) with e | linhas
      · rw [hp] at h
        exact absurd h (by simp)
      · rw [hp] at h
        injection h with h
        subst h
        exact c3_assemble linhas _ _ (projectAll_length _ _ _ hp)
    | tup cells0 =>
      simp only [formatar_resultado] at h
      injection h with h
      subst h
      exact c3_assemble _ _ _ (List.length_map _ _)

/-- Claim C4: every cell value (column headers included, which go through
the same escaping) is neutralized before insertion into the Markdown
table: `escape_cell` expands `|` to `\|` and maps each newline to a
space, its output contains no unescaped `|` and no newline, and every
rendered table line (data rows and the header alike) contains no
newline. -/
theorem c4_cell_escaping :
    (∀ cell : String, (escape_cell cell).data = (charExpand fPipe cell.data).map gNL ∧
       hasBadPipe (escape_cell cell).data = false ∧
       nlFree (escape_cell cell).data = true) ∧
    (∀ linha : List String, nlFree (dataLine linha).data = true) ∧
    (∀ cols : List String, nlFree (headerLine cols).data = true) :=
  ⟨fun cell => ⟨escape_cell_data cell, escape_cell_noBadPipe cell, escape_cell_nlFree cell⟩,
   fun linha => nlFree_dataLine linha,
   fun cols => by rw [headerLine_eq_dataLine]; exact nlFree_dataLine cols⟩

/-- Claim C3 witness: on eleven rows the rendered table has exactly 10
data rows and ends with the truncation notice; on two rows both rows are
rendered and no notice appears. -/
theorem c3_witness :
    (countDataRows c3Out11 = 10 ∧ strEndsWith c3Out11 avisoTruncado = true ∧
       strContains avisoTruncado ("10") = true) ∧
    (countDataRows c3Out2 = 2 ∧ hasSub2 '\n' '⚠' c3Out2.data = false) :=
  ⟨(c3_formatter_row_cap c3Rows11 none c3Out11 rfl).1 (by decide),
   (c3_formatter_row_cap c3Rows2 none c3Out2 rfl).2 (by decide)⟩

/-- Claim C2 counterexample: on the reply `"SELECT sql"` (no fenced block,
a SQL keyword and a literal `"sql"` present) the code returns the reply
stripped and untouched, while the claim's described algorithm — split
unconditionally, transform the first keyword-bearing segment — removes
the `"sql"` and returns `"SELECT"`. -/
theorem c2_counterexample :
    extrairSQL ("SELECT sql") = ("SELECT sql") ∧
    extrairSQLSpec ("SELECT sql") = ("SELECT") ∧
    extrairSQL ("SELECT sql") ≠ extrairSQLSpec ("SELECT sql") :=
  ⟨by decide, by decide, by decide⟩

/-- Claim C2 (amended): the Extractor behaves as the claim describes only
when the reply contains the triple-backtick delimiter; a reply without it
is returned stripped and otherwise verbatim, even when it contains a SQL
keyword or the substring "sql". -/
theorem c2_amended_guarded_extraction :
    ∀ s : String,
      (strContains s ("```") = true → extrairSQL s = extrairSQLSpec s) ∧
      (strContains s ("```") = false → extrairSQL s = pyStrip s) := by
  intro s
  constructor
  · intro h
    simp only [extrairSQL, extrairSQLSpec, h, if_true]
  · intro h
    simp [extrairSQL, h]

/-- Claim C2 witness: a fenced reply goes through the split-and-transform
path exactly as the spec describes it. -/
theorem c2_witness :
    extrairSQL ("```SELECT 1```") = extrairSQLSpec ("```SELECT 1```") :=
  (c2_amended_guarded_extraction ("```SELECT 1```")).1 (by decide)

/-- Claim C6 counterexample: removing `"sql"` inside the selected segment
of `"``` ``sql` SELECT 1 ```"` manufactures a fresh triple-backtick
delimiter, so re-extraction splits again and the Extractor is not
idempotent on this reply. -/
theorem c6_counterexample :
    extrairSQL ("``` ``sql` SELECT 1 ```") = ("``` SELECT 1") ∧
    extrairSQL (extrairSQL ("``` ``sql` SELECT 1 ```")) = ("SELECT 1") ∧
    extrairSQL (extrairSQL ("``` ``sql` SELECT 1 ```")) ≠ extrairSQL ("``` ``sql` SELECT 1 ```") :=
  ⟨by decide, by decide, by decide⟩

/-- Claim C6 (amended): the Extractor is idempotent on every reply whose
extracted output contains no triple-backtick delimiter (the output can
only contain one when the "sql"/"SQL" removal inside the selected
segment manufactures it). -/
theorem c6_amended_idempotence :
    ∀ s : String, strContains (extrairSQL s) ("```") = false →
      extrairSQL (extrairSQL s) = extrairSQL s := by
  intro s h
  obtain ⟨t, ht⟩ := extrairSQL_is_strip s
  rw [ht] at h ⊢
  simp [extrairSQL, h, pyStrip_idem]

/-- Claim C6 witness: a delimiter-free output is a fixed point. -/
theorem c6_witness :
    extrairSQL (extrairSQL ("SELECT 1")) = extrairSQL ("SELECT 1") :=
  c6_amended_idempotence ("SELECT 1") (by decide)

/-- Claim C1: for every engine and non-empty statement, a statement whose
stripped uppercased text starts with SELECT yields the rows shape with
the cursor's column names (empty when the driver reports none) and the
fetched rows; any other statement yields the committed-state-plus-status
shape with the success message (the spec renders the code's
"Executado com sucesso" in English).  Concretely, on the empty `teste`
table the example SELECT yields columns Id, Nome, Idade and no rows, the
example INSERT yields the status shape, and a subsequent SELECT sees the
inserted row. -/
theorem c1_executor_branches :
    (∀ (σ : Type) (eng : Engine σ) (db db' : σ) (query : String) (cur : SqlCursor),
       pyStrip query ≠ ("") →
       eng.exec db query = .ok (db', cur) →
       (pyStartsWith (pyUpper (pyStrip query)) ("SELECT") = true →
          executar_sql eng db query = (db', .rows query (cur.description.getD []) cur.rows)) ∧
       (pyStartsWith (pyUpper (pyStrip query)) ("SELECT") = false →
          executar_sql eng db query = (db', .status query ("Executado com sucesso")))) ∧
    executar_sql sqliteTesteEngine testeEmpty ("SELECT * FROM teste") =
      (testeEmpty, .rows ("SELECT * FROM teste") [("Id"), ("Nome"), ("Idade")] []) ∧
    (executar_sql sqliteTesteEngine testeEmpty insertAna).2 =
      .status insertAna ("Executado com sucesso") ∧
    (executar_sql sqliteTesteEngine
        (executar_sql sqliteTesteEngine testeEmpty insertAna).1 ("SELECT * FROM teste")).2 =
      .rows ("SELECT * FROM teste") [("Id"), ("Nome"), ("Idade")]
        [[.int 1, .text ("Ana"), .int 30]] := by
  refine ⟨?_, by decide, by decide, by decide⟩
  intro σ eng db db' query cur hne hexec
  constructor
  · intro hsel
    simp [executar_sql, hne, hexec, hsel]
  · intro hnsel
    simp [executar_sql, hne, hexec, hnsel]

/-- Claim C1 witness: the SELECT branch applied at the concrete example. -/
theorem c1_witness :
    executar_sql sqliteTesteEngine testeEmpty ("SELECT * FROM teste") =
      (testeEmpty,
       .rows ("SELECT * FROM teste")
         ((SqlCursor.mk (some [("Id"), ("Nome"), ("Idade")]) []).description.getD [])
         (SqlCursor.mk (some [("Id"), ("Nome"), ("Idade")]) []).rows) :=
  (c1_executor_branches.1 TesteDB sqliteTesteEngine testeEmpty testeEmpty
      ("SELECT * FROM teste") (SqlCursor.mk (some [("Id"), ("Nome"), ("Idade")]) [])
      (by decide) (by rfl)).1 (by decide)

/-- Claim C5: on empty or whitespace-only input the Executor returns the
empty-query erro (the code's "Query vazia") immediately, the state is
unchanged, and the result does not depend on the engine at all — no
database access happens. -/
theorem c5_empty_query_guard :
    ∀ (σ : Type) (eng eng2 : Engine σ) (db : σ) (query : String),
      pyStrip query = ("") →
      executar_sql eng db query = (db, .erro ("Query vazia") none) ∧
      executar_sql eng db query = executar_sql eng2 db query := by
  intro σ eng eng2 db query h
  constructor
  · simp [executar_sql, h]
  · simp [executar_sql, h]

/-- Claim C5 witness: the guard at a whitespace-only query, for two
different engines. -/
theorem c5_witness :
    executar_sql sqliteTesteEngine testeEmpty ("   ") =
      (testeEmpty, .erro ("Query vazia") none) ∧
    executar_sql sqliteTesteEngine testeEmpty ("   ") =
      executar_sql trivEngine testeEmpty ("   ") :=
  c5_empty_query_guard TesteDB sqliteTesteEngine trivEngine testeEmpty ("   ") (by decide)

theorem procChunks_no_calls (aiSql : PyVal → SqlResult) :
    ∀ (chunks : List Chunk) (acc : String),
      (∀ ch ∈ chunks, ch.tool_calls = []) →
      procChunks aiSql chunks acc = .resposta (fallbackText (acc ++ accumContent chunks)) := by
  intro chunks
  induction chunks with
  | nil =>
    intro acc _
    simp [procChunks, accumContent, String.append_empty]
  | cons ch rest ih =>
    intro acc h
    have hc : ch.tool_calls = [] := h ch (by simp)
    rw [procChunks, hc]
    show (match procCalls aiSql [] with
          | some r => r
          | none => procChunks aiSql rest (acc ++ ch.content.getD (""))) = _
    rw [show procCalls aiSql [] = none from rfl]
    rw [ih _ (fun z hz => h z (by simp [hz]))]
    rw [show accumContent (ch :: rest) = ch.content.getD ("") ++ accumContent rest from rfl]
    rw [String.append_assoc]

/-- Claim C7 counterexample: on a stream whose only chunk carries the
plain content `"  hi  "` and no tool call, the Translator returns the
STRIPPED content `"hi"`, not the accumulated content itself — so the
reply is not returned exactly. -/
theorem c7_counterexample :
    processar_com_tools oracleZero [Chunk.mk (some ("  hi  ")) []] = .resposta ("hi") ∧
    processar_com_tools oracleZero [Chunk.mk (some ("  hi  ")) []] ≠ .resposta ("  hi  ") :=
  ⟨by decide, by decide⟩

/-- Claim C7 (amended): when the stream carries plain content and no tool
call, the Translator returns the accumulated streamed content stripped of
surrounding whitespace as a plain textual answer, substituting the fixed
message "Sem resposta gerada" when the stripped content is empty. -/
theorem c7_amended_plain_answer :
    ∀ (aiSql : PyVal → SqlResult) (chunks : List Chunk),
      (∀ ch ∈ chunks, ch.tool_calls = []) →
      processar_com_tools aiSql chunks = .resposta (fallbackText (accumContent chunks)) := by
  intro aiSql chunks h
  rw [processar_com_tools, procChunks_no_calls aiSql chunks _ h]
  rw [show ("" : String) ++ accumContent chunks = accumContent chunks from by
    apply String.ext
    rw [String.data_append]
    rfl]

/-- Claim C7 witness: a tool-call-free stream produces the plain answer. -/
theorem c7_witness :
    processar_com_tools oracleZero [Chunk.mk (some ("ok")) []] =
      .resposta (fallbackText (accumContent [Chunk.mk (some ("ok")) []])) :=
  c7_amended_plain_answer oracleZero [Chunk.mk (some ("ok")) []]
    (by intro ch h; simp at h; subst h; rfl)

/-- Claim C9 counterexample: a stream whose only tool call is `ExecSql`
with the undecodable argument string `"\x7bbad"` produces NO user-facing
error: the call is silently skipped (only logged) and the Translator
falls through to the plain-answer fallback. -/
theorem c9_counterexample :
    processar_com_tools oracleZero
        [Chunk.mk none [ToolCall.mk ("ExecSql") (some (.pystr ("\x7bbad")))]] =
      .resposta ("Sem resposta gerada") ∧
    isErro (processar_com_tools oracleZero
        [Chunk.mk none [ToolCall.mk ("ExecSql") (some (.pystr ("\x7bbad")))]]) = false :=
  ⟨by decide, by decide⟩

/-- Claim C9 (amended): a streamed tool call whose string arguments fail
JSON decoding is skipped at that boundary — processing continues exactly
as if the call were absent, and no user-facing error message is produced
for it (the error is only logged). -/
theorem c9_amended_skip_malformed :
    ∀ (aiSql : PyVal → SqlResult) (call : ToolCall) (rest : List ToolCall) (s : String),
      call.arguments = some (.pystr s) → jsonLoads s = none →
      procCalls aiSql (call :: rest) = procCalls aiSql rest := by
  intro aiSql call rest s h1 h2
  rw [procCalls, h1]
  simp [resolveArgs, h2]

/-- Claim C9 witness: the malformed call is skipped. -/
theorem c9_witness :
    procCalls oracleZero [ToolCall.mk ("ExecSql") (some (.pystr ("\x7bbad")))] =
      procCalls oracleZero [] :=
  c9_amended_skip_malformed oracleZero (ToolCall.mk ("ExecSql") (some (.pystr ("\x7bbad")))) []
    ("\x7bbad") rfl (by rfl)

/-- Claim C10: a tool call whose name is not `ExecSql` is skipped without
producing an error and the loop continues; the first `ExecSql` call whose
arguments survive the decoding step determines the returned result —
independently of every later call — and once a chunk's calls produce a
result, processing returns it immediately, discarding all remaining
chunks and content (so at most one `ExecSql` invocation runs per
question). -/
theorem c10_single_execsql_dispatch :
    ∀ (aiSql : PyVal → SqlResult) (c : ToolCall) (rest : List ToolCall),
      (c.name ≠ ("ExecSql") → procCalls aiSql (c :: rest) = procCalls aiSql rest) ∧
      (∀ v : PyVal, c.name = ("ExecSql") →
         resolveArgs (c.arguments.getD (.pystr ("\x7b\x7d"))) = .resolved v →
         procCalls aiSql (c :: rest) = some (execSqlCall aiSql v)) ∧
      (∀ (ch : Chunk) (chs : List Chunk) (resposta : String) (r : ToolsResult),
         procCalls aiSql ch.tool_calls = some r →
         procChunks aiSql (ch :: chs) resposta = r) := by
  intro aiSql c rest
  refine ⟨?_, ?_, ?_⟩
  · intro h
    rw [procCalls]
    rcases hra : resolveArgs (c.arguments.getD (.pystr ("\x7b\x7d"))) with _ | v
    · rfl
    · simp [h]
  · intro v hname hv
    rw [procCalls]
    simp [hv, hname]
  · intro ch chs resposta r h
    rw [procChunks]
    simp [h]

/-- Claim C10 witness: a non-ExecSql call is skipped, the first usable
ExecSql call wins over a later one, and a firing chunk ends processing
with the remaining chunk discarded. -/
theorem c10_witness :
    procCalls oracleZero [ToolCall.mk ("Consultar") none] = procCalls oracleZero [] ∧
    procCalls oracleZero
        [ToolCall.mk ("ExecSql") (some (.pydict [(("pergunta"), .pystr ("q"))])),
         ToolCall.mk ("ExecSql") (some (.pydict [(("pergunta"), .pystr ("outra"))]))] =
      some (execSqlCall oracleZero (.pydict [(("pergunta"), .pystr ("q"))])) ∧
    procChunks oracleZero
        [Chunk.mk none [ToolCall.mk ("ExecSql") (some (.pydict [(("pergunta"), .pystr ("q"))]))],
         Chunk.mk (some ("discarded")) []] ("") =
      ToolsResult.sql (oracleZero (.pystr ("q"))) := by
  refine ⟨?_, ?_, ?_⟩
  · exact (c10_single_execsql_dispatch oracleZero (ToolCall.mk ("Consultar") none) []).1
      (by decide)
  · exact (c10_single_execsql_dispatch oracleZero
      (ToolCall.mk ("ExecSql") (some (.pydict [(("pergunta"), .pystr ("q"))])))
      [ToolCall.mk ("ExecSql") (some (.pydict [(("pergunta"), .pystr ("outra"))]))]).2.1
      (.pydict [(("pergunta"), .pystr ("q"))]) rfl (by rfl)
  · exact (c10_single_execsql_dispatch oracleZero (ToolCall.mk ("Consultar") none) []).2.2
      (Chunk.mk none [ToolCall.mk ("ExecSql") (some (.pydict [(("pergunta"), .pystr ("q"))]))])
      [Chunk.mk (some ("discarded")) []] ("") (ToolsResult.sql (oracleZero (.pystr ("q"))))
      (by rfl)

/-- Claim C8 (code bug): contrary to the Normalizer's own docstring
("Garante que o resultado sempre vire um dicionário seguro") and the
claim, a string that decodes to a JSON array is returned as a list, not
as a mapping: `seguro_json("[1, 2]")` is the list `[1, 2]`. -/
theorem c8_normalizer_nondict :
    seguro_json (.pystr ("[1, 2]")) = .pylist [.pyint 1, .pyint 2] ∧
    isDictPy (seguro_json (.pystr ("[1, 2]"))) = false :=
  ⟨rfl, rfl⟩
